import Mathlib

/-!
Verification of the DAG status monitor and its helpers from omicron/condor.py,
shallowly embedded in Lean.  Scheduler state (live queue and history log) is
modelled explicitly; every function below mirrors the corresponding Python
function in condor.py.
-/

namespace Condor

/-- ASCII lowercase of one character, as Python str.lower acts on the ASCII
status names used in this module. -/
def pyLowerChar (c : Char) : Char :=
  if 65 ≤ c.toNat && c.toNat ≤ 90 then Char.ofNat (c.toNat + 32) else c

/-- ASCII lowercase of a string (all job status names are ASCII). -/
def pyLower (s : String) : String := String.mk (s.data.map pyLowerChar)

/-- The fixed ordered JOB_STATUS list of condor.py. -/
def JOB_STATUS : List String :=
  ["Unexpanded", "Idle", "Running", "Removed", "Completed", "Held",
   "Submission error"]

/-- Exact-key lookup in an association list, modelling Python dict lookup
(the seven lowered names are pairwise distinct, so first-match equals
last-write-wins dict semantics). -/
def dictLookup (m : List (String × Nat)) (k : String) : Option Nat :=
  (m.find? (fun p => p.1 == k)).map Prod.snd

/-- JOB_STATUS_MAP = dict((v.lower(), k) for k, v in enumerate(JOB_STATUS)):
each status name, lowercased, paired with its index. -/
def JOB_STATUS_MAP : List (String × Nat) :=
  JOB_STATUS.enum.map (fun p => (pyLower p.2, p.1))

/-- One classad record held by the scheduler: the cluster id, the parent
DAGMan job id when the job is a DAG node, the JobStatus code, the six
DAG_Nodes* counters and the ExitCode. -/
structure SchedJob where
  clusterId : Nat
  dagManJobId : Option Nat
  jobStatus : Nat
  total : Nat
  done : Nat
  queued : Nat
  ready : Nat
  unready : Nat
  failed : Nat
  exitCode : Int
deriving DecidableEq, Repr

/-- The scheduler as seen through htcondor.Schedd: a live job queue and a
history log ordered most recent first (schedd.history with match limit 1
returns the most recent matching record). -/
structure Schedd where
  queue : List SchedJob
  history : List SchedJob
deriving DecidableEq, Repr

/-- schedd.query("ClusterId == dagmanid", classads): the live-queue records
whose ClusterId matches. -/
def queryCluster (schedd : Schedd) (dagmanid : Nat) : List SchedJob :=
  schedd.queue.filter (fun j => j.clusterId == dagmanid)

/-- schedd.query("DAGManJobId == dagmanid"): the live-queue records of jobs
subordinate to the given DAG. -/
def queryDagChildren (schedd : Schedd) (dagmanid : Nat) : List SchedJob :=
  schedd.queue.filter (fun j => j.dagManJobId == some dagmanid)

/-- list(schedd.history("ClusterId == dagmanid", classads + [ExitCode], 1)):
at most one record, the most recent matching one. -/
def historyCluster (schedd : Schedd) (dagmanid : Nat) : List SchedJob :=
  (schedd.history.filter (fun j => j.clusterId == dagmanid)).take 1

/-- The error raised by get_dag_status when the cluster id is absent from
both the live queue and the history log (the IndexError that propagates out
of the history lookup, named NotFoundError by the specification), and by
find_rescue_dag when no rescue file matches. -/
inductive CondorError
  | notFound
deriving DecidableEq, Repr

/-- The status dict assembled by get_dag_status: the six base counters are
always present; held, running, idle and exitcode are dict keys that may be
absent, modelled with Option. -/
structure DagStatus where
  total : Nat
  done : Nat
  queued : Nat
  ready : Nat
  unready : Nat
  failed : Nat
  held : Option Nat
  running : Option Nat
  idle : Option Nat
  exitcode : Option Int
deriving DecidableEq, Repr

/-- The dict built from zip(states, classads): the six base counters copied
from a scheduler record, with no detail counters and no exitcode. -/
def baseStatus (job : SchedJob) : DagStatus :=
  { total := job.total, done := job.done, queued := job.queued,
    ready := job.ready, unready := job.unready, failed := job.failed,
    held := none, running := none, idle := none, exitcode := none }

/-- The three mutable counters of the detailed branch. -/
structure DetailCounts where
  held : Nat
  running : Nat
  idle : Nat
deriving DecidableEq, Repr

/-- One iteration of the node loop in get_dag_status: the if/elif chain
comparing JobStatus against JOB_STATUS_MAP at held, running, idle. -/
def detailStep (acc : DetailCounts) (node : SchedJob) : DetailCounts :=
  if (some node.jobStatus == dictLookup JOB_STATUS_MAP "held") then
    { acc with held := acc.held + 1 }
  else if (some node.jobStatus == dictLookup JOB_STATUS_MAP "running") then
    { acc with running := acc.running + 1 }
  else if (some node.jobStatus == dictLookup JOB_STATUS_MAP "idle") then
    { acc with idle := acc.idle + 1 }
  else acc

/-- The whole node loop, starting from the zero-initialised counters. -/
def detailTally (nodes : List SchedJob) : DetailCounts :=
  nodes.foldl detailStep ⟨0, 0, 0⟩

/-- get_dag_status(dagmanid, schedd, detailed) of condor.py.  The live query
is tried first; an empty result (the IndexError of the [0] subscript) routes
to the history fallback; an empty history result is the propagated
not-found error.  In the live case the detailed flag adds the three node
counters; the Python default for detailed is True. -/
def get_dag_status (dagmanid : Nat) (schedd : Schedd) (detailed : Bool) :
    Except CondorError DagStatus :=
  match queryCluster schedd dagmanid with
  | [] =>
    match historyCluster schedd dagmanid with
    | [] => Except.error CondorError.notFound
    | job :: _ =>
      Except.ok { baseStatus job with exitcode := some job.exitCode }
  | job :: _ =>
    if detailed then
      let d := detailTally (queryDagChildren schedd dagmanid)
      Except.ok { baseStatus job with
                  held := some d.held, running := some d.running,
                  idle := some d.idle }
    else
      Except.ok (baseStatus job)

/-- iterate_dag_status(clusterid): the generator polls get_dag_status with
detailed True, yields each status, and stops after yielding a status that
carries an exitcode key.  The scheduler state observed by each successive
poll is supplied as a script of Schedd snapshots; the sleep between polls
has no observable effect on the yielded values.  A poll whose query raises
ends the generator, modelled as producing no further elements. -/
def iterate_dag_status (clusterid : Nat) : List Schedd → List DagStatus
  | [] => []
  | schedd :: rest =>
    match get_dag_status clusterid schedd true with
    | Except.error _ => []
    | Except.ok status =>
      status :: (if status.exitcode.isSome then []
                 else iterate_dag_status clusterid rest)

/-- Whitespace as matched by a Python regular expression class backslash-s
(ASCII part): space, tab, newline, carriage return, vertical tab, form
feed. -/
def pyWs (c : Char) : Bool :=
  c == ' ' || c == '\t' || c == '\n' || c == '\r' || c == '\x0b' || c == '\x0c'

/-- Strip an exact literal character sequence from the front of the input,
returning the remainder on success. -/
def stripLit : List Char → List Char → Option (List Char)
  | [], cs => some cs
  | _ :: _, [] => none
  | l :: ls, c :: cs => if c == l then stripLit ls cs else none

/-- Match the re_dagman_cluster pattern at the head of the input: the fixed
lookbehind, the word submitted, one whitespace, the word to, one
whitespace, the word cluster and a literal space, followed by a maximal
nonempty digit run, which is returned. -/
def matchClusterAt (input : List Char) : Option (List Char) :=
  match stripLit "submitted".data input with
  | none => none
  | some cs =>
    match cs with
    | [] => none
    | c :: cs =>
      if pyWs c then
        match stripLit "to".data cs with
        | none => none
        | some cs =>
          match cs with
          | [] => none
          | c :: cs =>
            if pyWs c then
              match stripLit "cluster ".data cs with
              | none => none
              | some cs =>
                let digits := cs.takeWhile Char.isDigit
                if digits.isEmpty then none else some digits
            else none
      else none

/-- re.search for re_dagman_cluster: the leftmost digit run preceded by the
fixed-width lookbehind (equivalently, the leftmost start of lookbehind plus
digits, since the lookbehind has fixed width). -/
def searchCluster : List Char → Option (List Char)
  | [] => none
  | c :: cs =>
    match matchClusterAt (c :: cs) with
    | some d => some d
    | none => searchCluster cs

/-- Python int on a nonempty ASCII digit string. -/
def digitsToNat (ds : List Char) : Nat :=
  ds.foldl (fun n c => 10 * n + (c.toNat - 48)) 0

/-- re_dagman_cluster.search(out) followed by int(.group()), as an
Option-valued function on the captured output. -/
def re_dagman_cluster_search (out : String) : Option Nat :=
  (searchCluster out.data).map digitsToNat

/-- The two error kinds of submit_dag: the re-raised CalledProcessError of
the shell call (SubmissionExecError) and the re-raised AttributeError of a
failed pattern search, re-labelled Failed to extract DAG cluster ID
(SubmissionParseError). -/
inductive SubmitError
  | execError
  | parseError
deriving DecidableEq, Repr

/-- Modelled from the spec: shell (imported from omicron.utils, whose source
is not included) runs condor_submit_dag and either returns the captured
output or raises on a nonzero exit; its outcome is therefore an input here.
submit_dag propagates a shell failure unchanged and otherwise extracts the
cluster id from the output with re_dagman_cluster, raising the parse error
when the pattern is absent. -/
def submit_dag (shellOut : Except Unit String) : Except SubmitError Nat :=
  match shellOut with
  | Except.error _ => Except.error SubmitError.execError
  | Except.ok out =>
    match re_dagman_cluster_search out with
    | some n => Except.ok n
    | none => Except.error SubmitError.parseError

/-- Glob pattern match for the fixed patterns of this module: a bracketed
digit class matches one ASCII digit, every other pattern character matches
itself. -/
def globMatch : List Char → List Char → Bool
  | [], [] => true
  | [], _ :: _ => false
  | _ :: _, [] => false
  | '[' :: '0' :: '-' :: '9' :: ']' :: ps, c :: cs =>
    c.isDigit && globMatch ps cs
  | p :: ps, c :: cs => p == c && globMatch ps cs

/-- glob.glob over an explicitly supplied directory listing: the file names
matching the pattern. -/
def glob (pattern : String) (listing : List String) : List String :=
  listing.filter (fun f => globMatch pattern.data f.data)

/-- Strict lexicographic order on character lists by code point, the order
Python uses to compare strings. -/
def strLtChars : List Char → List Char → Bool
  | [], [] => false
  | [], _ :: _ => true
  | _ :: _, [] => false
  | a :: as, b :: bs =>
    if a.toNat < b.toNat then true
    else if b.toNat < a.toNat then false
    else strLtChars as bs

/-- Python string comparison. -/
def pyStrLt (s t : String) : Bool := strLtChars s.data t.data

/-- Insert into an ascending list, keeping code-point lexicographic order as
Python sorted does on strings. -/
def insertAsc (s : String) : List String → List String
  | [] => [s]
  | t :: ts => if pyStrLt s t then s :: t :: ts else t :: insertAsc s ts

/-- Python sorted on a list of strings. -/
def sortStrings : List String → List String
  | [] => []
  | s :: rest => insertAsc s (sortStrings rest)

/-- find_rescue_dag(dagfile) of condor.py, over an explicit directory
listing.  The source computes sorted(glob(PATTERN))[-1] where PATTERN is
the literal string with the percent-s placeholder left unsubstituted: the
dagfile argument is never interpolated into the pattern, so the glob looks
for files whose names literally start with percent-s.  An empty match list
(the IndexError of the [-1] subscript, re-labelled No rescue DAG files
found) is the not-found error. -/
def find_rescue_dag (dagfile : String) (listing : List String) :
    Except CondorError String :=
  let _ := dagfile
  match (sortStrings (glob "%s.rescue[0-9][0-9][0-9]" listing)).getLast? with
  | some f => Except.ok f
  | none => Except.error CondorError.notFound

/-- Follows the words of the spec, for contrast with find_rescue_dag: list
the files matching dagfile dot rescue and three digits, sort lexically,
return the lexically greatest, and fail with the not-found error when no
file matches. -/
def find_rescue_dag_spec (dagfile : String) (listing : List String) :
    Except CondorError String :=
  match (sortStrings (glob (dagfile ++ ".rescue[0-9][0-9][0-9]") listing)).getLast? with
  | some f => Except.ok f
  | none => Except.error CondorError.notFound

/-- The Python exception kinds relevant to monitor_dag after its loop: the
IndexError its handler expects, and the NameError produced by the reference
to the undefined name find_rescue. -/
inductive PyExc
  | indexError
  | nameError
deriving DecidableEq, Repr

/-- The name find_rescue is referenced by monitor_dag but defined nowhere in
the module and not imported (the defined function is find_rescue_dag), so
in Python the call raises NameError unconditionally. -/
def find_rescue (dagfile : String) : Except PyExc String :=
  let _ := dagfile
  Except.error PyExc.nameError

/-- The observable outcomes of monitor_dag on a finite observation window:
the OSError of the initial stat when the lock file is missing, the
NameError of the post-loop find_rescue call, a normal return, or still
polling when the lock file is present in every observed snapshot. -/
inductive MonitorOutcome
  | raisedStatError
  | raisedNameError
  | returned
  | stillPolling
deriving DecidableEq, Repr

/-- The polling loop of monitor_dag: one filesystem snapshot is observed per
iteration after the sleep; the loop breaks (some) at the first snapshot in
which the lock file is gone, and none means the window ended with the lock
still present. -/
def monitorLoop (lock : String) : List (List String) → Option Unit
  | [] => none
  | fs :: rest => if lock ∈ fs then monitorLoop lock rest else some ()

/-- monitor_dag(dagfile) of condor.py.  fs0 is the directory listing at call
time, observed by the initial stat of dagfile dot lock, which raises when
the lock file is absent; script lists the snapshots observed by the stat of
each later iteration.  When the loop breaks, the body tries find_rescue and
returns on IndexError; every other exception there propagates. -/
def monitor_dag (dagfile : String) (fs0 : List String)
    (script : List (List String)) : MonitorOutcome :=
  if (dagfile ++ ".lock") ∈ fs0 then
    match monitorLoop (dagfile ++ ".lock") script with
    | none => MonitorOutcome.stillPolling
    | some _ =>
      match find_rescue dagfile with
      | Except.ok _ => MonitorOutcome.returned
      | Except.error PyExc.indexError => MonitorOutcome.returned
      | Except.error PyExc.nameError => MonitorOutcome.raisedNameError
  else MonitorOutcome.raisedStatError

/-- A DAGMan job live in the queue: cluster 42, ten nodes of which three are
done and four queued. -/
def liveJob : SchedJob :=
  { clusterId := 42, dagManJobId := none, jobStatus := 2,
    total := 10, done := 3, queued := 4, ready := 2, unready := 1,
    failed := 0, exitCode := 0 }

/-- The same DAG after completion, as its history record. -/
def doneJob : SchedJob :=
  { clusterId := 42, dagManJobId := none, jobStatus := 4,
    total := 10, done := 10, queued := 0, ready := 0, unready := 0,
    failed := 0, exitCode := 0 }

/-- Scheduler snapshot while the DAG is live. -/
def liveSchedd : Schedd := { queue := [liveJob], history := [] }

/-- Scheduler snapshot after the DAG has left the queue. -/
def doneSchedd : Schedd := { queue := [], history := [doneJob] }

/-- Scheduler snapshot that has never heard of cluster 42. -/
def emptySchedd : Schedd := { queue := [], history := [] }

/-- A scripted connection: three polls see the DAG live, the fourth finds it
only in history. -/
def demoScript : List Schedd := [liveSchedd, liveSchedd, liveSchedd, doneSchedd]

/-- A node job subordinate to DAG 42, in the given JobStatus. -/
def childJob (cid : Nat) (status : Nat) : SchedJob :=
  { clusterId := cid, dagManJobId := some 42, jobStatus := status,
    total := 0, done := 0, queued := 0, ready := 0, unready := 0,
    failed := 0, exitCode := 0 }

/-- Scheduler snapshot with the live DAG and five subordinate node jobs:
one held, two running, one idle, one completed. -/
def busySchedd : Schedd :=
  { queue := [liveJob, childJob 101 5, childJob 102 2, childJob 103 2,
              childJob 104 1, childJob 105 4],
    history := [] }

/-- Lexicon value at the key held. -/
lemma lookup_held : dictLookup JOB_STATUS_MAP "held" = some 5 := by decide

/-- Lexicon value at the key running. -/
lemma lookup_running : dictLookup JOB_STATUS_MAP "running" = some 2 := by decide

/-- Lexicon value at the key idle. -/
lemma lookup_idle : dictLookup JOB_STATUS_MAP "idle" = some 1 := by decide

/-- The if/elif chain of the node loop, with the three lexicon lookups
evaluated. -/
lemma detailStep_eq (acc : DetailCounts) (n : SchedJob) :
    detailStep acc n =
      if n.jobStatus == 5 then { acc with held := acc.held + 1 }
      else if n.jobStatus == 2 then { acc with running := acc.running + 1 }
      else if n.jobStatus == 1 then { acc with idle := acc.idle + 1 }
      else acc := by
  unfold detailStep
  rw [lookup_held, lookup_running, lookup_idle]
  rfl

/-- The node loop computes, in each counter, the number of nodes whose
status code is the corresponding lexicon code. -/
lemma detailFold_eq (nodes : List SchedJob) (acc : DetailCounts) :
    nodes.foldl detailStep acc =
      ⟨acc.held + nodes.countP (fun n => n.jobStatus == 5),
       acc.running + nodes.countP (fun n => n.jobStatus == 2),
       acc.idle + nodes.countP (fun n => n.jobStatus == 1)⟩ := by
  induction nodes generalizing acc with
  | nil => simp
  | cons n ns ih =>
    rw [List.foldl_cons, detailStep_eq, ih]
    simp only [List.countP_cons]
    by_cases h5 : n.jobStatus = 5
    · simp [h5, DetailCounts.mk.injEq]
      omega
    · by_cases h2 : n.jobStatus = 2
      · simp [h2, DetailCounts.mk.injEq]
        omega
      · by_cases h1 : n.jobStatus = 1
        · simp [h1, h5, h2, DetailCounts.mk.injEq]
          omega
        · simp [h5, h2, h1, DetailCounts.mk.injEq]

/-- Closed form of detailTally. -/
lemma detailTally_eq (nodes : List SchedJob) :
    detailTally nodes =
      ⟨nodes.countP (fun n => n.jobStatus == 5),
       nodes.countP (fun n => n.jobStatus == 2),
       nodes.countP (fun n => n.jobStatus == 1)⟩ := by
  unfold detailTally
  rw [detailFold_eq]
  simp

/-- No node is counted twice: the three counters sum to at most the number
of nodes. -/
lemma countP_sum_le (nodes : List SchedJob) :
    nodes.countP (fun n => n.jobStatus == 5)
      + nodes.countP (fun n => n.jobStatus == 2)
      + nodes.countP (fun n => n.jobStatus == 1) ≤ nodes.length := by
  induction nodes with
  | nil => simp
  | cons n ns ih =>
    simp only [List.countP_cons, List.length_cons, beq_iff_eq]
    split_ifs <;> omega

/-- Statement form of the held predicate versus its evaluated code. -/
lemma pred_held_eq :
    (fun n : SchedJob => some n.jobStatus == dictLookup JOB_STATUS_MAP "held")
      = (fun n : SchedJob => n.jobStatus == 5) := by
  funext n
  rw [lookup_held]
  rfl

/-- Statement form of the running predicate versus its evaluated code. -/
lemma pred_running_eq :
    (fun n : SchedJob => some n.jobStatus == dictLookup JOB_STATUS_MAP "running")
      = (fun n : SchedJob => n.jobStatus == 2) := by
  funext n
  rw [lookup_running]
  rfl

/-- Statement form of the idle predicate versus its evaluated code. -/
lemma pred_idle_eq :
    (fun n : SchedJob => some n.jobStatus == dictLookup JOB_STATUS_MAP "idle")
      = (fun n : SchedJob => n.jobStatus == 1) := by
  funext n
  rw [lookup_idle]
  rfl

/-- Branch equation: a nonempty live query selects the running branch. -/
lemma get_dag_status_of_live (dagmanid : Nat) (schedd : Schedd)
    (detailed : Bool) (j : SchedJob) (js : List SchedJob)
    (h : queryCluster schedd dagmanid = j :: js) :
    get_dag_status dagmanid schedd detailed =
      if detailed then
        Except.ok { baseStatus j with
                    held := some (detailTally (queryDagChildren schedd dagmanid)).held,
                    running := some (detailTally (queryDagChildren schedd dagmanid)).running,
                    idle := some (detailTally (queryDagChildren schedd dagmanid)).idle }
      else Except.ok (baseStatus j) := by
  unfold get_dag_status
  rw [h]

/-- Branch equation: an empty live query with a nonempty history selects the
terminal branch. -/
lemma get_dag_status_of_history (dagmanid : Nat) (schedd : Schedd)
    (detailed : Bool) (j : SchedJob) (js : List SchedJob)
    (hlive : queryCluster schedd dagmanid = [])
    (hhist : historyCluster schedd dagmanid = j :: js) :
    get_dag_status dagmanid schedd detailed =
      Except.ok { baseStatus j with exitcode := some j.exitCode } := by
  unfold get_dag_status
  rw [hlive, hhist]

/-- Branch equation: empty live query and empty history give the not-found
error. -/
lemma get_dag_status_of_none (dagmanid : Nat) (schedd : Schedd)
    (detailed : Bool)
    (hlive : queryCluster schedd dagmanid = [])
    (hhist : historyCluster schedd dagmanid = []) :
    get_dag_status dagmanid schedd detailed = Except.error CondorError.notFound := by
  unfold get_dag_status
  rw [hlive, hhist]

/-- C1: for every cluster id with a matching record in the live job queue,
get_dag_status returns a record carrying all six base counters as
non-negative integers copied from that record, with no exit code present,
and carrying the three detail counters held, running, idle exactly when
detailed is requested. -/
theorem get_dag_status_live_spec (dagmanid : Nat) (schedd : Schedd)
    (detailed : Bool) (j : SchedJob) (js : List SchedJob)
    (h : queryCluster schedd dagmanid = j :: js) :
    ∃ st : DagStatus, get_dag_status dagmanid schedd detailed = Except.ok st ∧
      st.exitcode = none ∧
      st.total = j.total ∧ st.done = j.done ∧ st.queued = j.queued ∧
      st.ready = j.ready ∧ st.unready = j.unready ∧ st.failed = j.failed ∧
      st.held.isSome = detailed ∧ st.running.isSome = detailed ∧
      st.idle.isSome = detailed := by
  rw [get_dag_status_of_live dagmanid schedd detailed j js h]
  cases detailed with
  | false => exact ⟨baseStatus j, rfl, rfl, rfl, rfl, rfl, rfl, rfl, rfl,
      rfl, rfl, rfl⟩
  | true => exact ⟨_, rfl, rfl, rfl, rfl, rfl, rfl, rfl, rfl, rfl, rfl, rfl⟩

/-- Witness for C1 on the concrete live scheduler snapshot. -/
theorem get_dag_status_live_spec_witness :
    ∃ st : DagStatus, get_dag_status 42 liveSchedd true = Except.ok st ∧
      st.exitcode = none ∧
      st.total = liveJob.total ∧ st.done = liveJob.done ∧
      st.queued = liveJob.queued ∧ st.ready = liveJob.ready ∧
      st.unready = liveJob.unready ∧ st.failed = liveJob.failed ∧
      st.held.isSome = true ∧ st.running.isSome = true ∧
      st.idle.isSome = true :=
  get_dag_status_live_spec 42 liveSchedd true liveJob [] (by rfl)

/-- C2: for every cluster id absent from the live queue but present in the
history log, get_dag_status returns the six base counters of the most
recent historical record together with its exit code, and omits held,
running and idle whatever the detailed flag; moreover every successful
status carries an exit code exactly when the live query was empty, so exit
code presence discriminates finished from active. -/
theorem get_dag_status_history_spec (dagmanid : Nat) (schedd : Schedd)
    (detailed : Bool) (j : SchedJob) (js : List SchedJob)
    (hlive : queryCluster schedd dagmanid = [])
    (hhist : historyCluster schedd dagmanid = j :: js) :
    get_dag_status dagmanid schedd detailed =
      Except.ok { total := j.total, done := j.done, queued := j.queued,
                  ready := j.ready, unready := j.unready, failed := j.failed,
                  held := none, running := none, idle := none,
                  exitcode := some j.exitCode } ∧
    (∀ (sch : Schedd) (d : Nat) (det : Bool) (st : DagStatus),
      get_dag_status d sch det = Except.ok st →
      (st.exitcode.isSome = true ↔ queryCluster sch d = [])) := by
  constructor
  · rw [get_dag_status_of_history dagmanid schedd detailed j js hlive hhist]
    rfl
  · intro sch d det st hok
    rcases hq : queryCluster sch d with _ | ⟨k, ks⟩
    · rcases hh : historyCluster sch d with _ | ⟨m, ms⟩
      · rw [get_dag_status_of_none d sch det hq hh] at hok
        exact absurd hok (by simp)
      · rw [get_dag_status_of_history d sch det m ms hq hh] at hok
        have hst : st = { baseStatus m with exitcode := some m.exitCode } :=
          (Except.ok.injEq _ _).mp hok.symm
        subst hst
        simp
    · rw [get_dag_status_of_live d sch det k ks hq] at hok
      cases det with
      | false =>
        have hst : st = baseStatus k := (Except.ok.injEq _ _).mp hok.symm
        subst hst
        simp [baseStatus, hq]
      | true =>
        have hst : st = { baseStatus k with
            held := some (detailTally (queryDagChildren sch d)).held,
            running := some (detailTally (queryDagChildren sch d)).running,
            idle := some (detailTally (queryDagChildren sch d)).idle } :=
          (Except.ok.injEq _ _).mp hok.symm
        subst hst
        simp [baseStatus, hq]

/-- Witness for C2 on the concrete finished scheduler snapshot. -/
theorem get_dag_status_history_spec_witness :
    get_dag_status 42 doneSchedd true =
      Except.ok { total := doneJob.total, done := doneJob.done,
                  queued := doneJob.queued, ready := doneJob.ready,
                  unready := doneJob.unready, failed := doneJob.failed,
                  held := none, running := none, idle := none,
                  exitcode := some doneJob.exitCode } ∧
    (∀ (sch : Schedd) (d : Nat) (det : Bool) (st : DagStatus),
      get_dag_status d sch det = Except.ok st →
      (st.exitcode.isSome = true ↔ queryCluster sch d = [])) :=
  get_dag_status_history_spec 42 doneSchedd true doneJob [] (by rfl) (by rfl)

/-- C4: for every cluster id absent from both the live queue and the history
log, get_dag_status fails with the not-found error, propagated to the
caller, while an empty live query alone (history still nonempty) is normal
control flow that returns a record. -/
theorem get_dag_status_unknown_spec (dagmanid : Nat) (schedd : Schedd)
    (detailed : Bool)
    (hlive : queryCluster schedd dagmanid = [])
    (hhist : historyCluster schedd dagmanid = []) :
    get_dag_status dagmanid schedd detailed = Except.error CondorError.notFound ∧
    (∀ (sch : Schedd) (j : SchedJob) (js : List SchedJob),
      queryCluster sch dagmanid = [] → historyCluster sch dagmanid = j :: js →
      ∃ st : DagStatus, get_dag_status dagmanid sch detailed = Except.ok st) := by
  refine ⟨get_dag_status_of_none dagmanid schedd detailed hlive hhist, ?_⟩
  intro sch j js hq hh
  exact ⟨_, get_dag_status_of_history dagmanid sch detailed j js hq hh⟩

/-- Witness for C4 on the concrete empty scheduler snapshot. -/
theorem get_dag_status_unknown_spec_witness :
    get_dag_status 42 emptySchedd true = Except.error CondorError.notFound ∧
    (∀ (sch : Schedd) (j : SchedJob) (js : List SchedJob),
      queryCluster sch 42 = [] → historyCluster sch 42 = j :: js →
      ∃ st : DagStatus, get_dag_status 42 sch true = Except.ok st) :=
  get_dag_status_unknown_spec 42 emptySchedd true (by rfl) (by rfl)

/-- C8: in the non-terminal case with detailed requested, each detail
counter equals the number of subordinate jobs whose status code is the
lexicon code for held, running or idle respectively, and the three counters
together never exceed the number of subordinate jobs returned by the detail
query; a job in any other state is counted nowhere. -/
theorem get_dag_status_detail_spec (dagmanid : Nat) (schedd : Schedd)
    (j : SchedJob) (js : List SchedJob)
    (h : queryCluster schedd dagmanid = j :: js) :
    ∃ st : DagStatus, get_dag_status dagmanid schedd true = Except.ok st ∧
      st.held = some ((queryDagChildren schedd dagmanid).countP
        (fun n => some n.jobStatus == dictLookup JOB_STATUS_MAP "held")) ∧
      st.running = some ((queryDagChildren schedd dagmanid).countP
        (fun n => some n.jobStatus == dictLookup JOB_STATUS_MAP "running")) ∧
      st.idle = some ((queryDagChildren schedd dagmanid).countP
        (fun n => some n.jobStatus == dictLookup JOB_STATUS_MAP "idle")) ∧
      (queryDagChildren schedd dagmanid).countP
          (fun n => some n.jobStatus == dictLookup JOB_STATUS_MAP "held")
        + (queryDagChildren schedd dagmanid).countP
          (fun n => some n.jobStatus == dictLookup JOB_STATUS_MAP "running")
        + (queryDagChildren schedd dagmanid).countP
          (fun n => some n.jobStatus == dictLookup JOB_STATUS_MAP "idle")
        ≤ (queryDagChildren schedd dagmanid).length := by
  rw [get_dag_status_of_live dagmanid schedd true j js h]
  rw [detailTally_eq, pred_held_eq, pred_running_eq, pred_idle_eq]
  exact ⟨_, rfl, rfl, rfl, rfl, countP_sum_le _⟩

/-- Witness for C8 on the concrete busy scheduler snapshot, whose node jobs
are one held, two running, one idle, one completed. -/
theorem get_dag_status_detail_spec_witness :
    ∃ st : DagStatus, get_dag_status 42 busySchedd true = Except.ok st ∧
      st.held = some ((queryDagChildren busySchedd 42).countP
        (fun n => some n.jobStatus == dictLookup JOB_STATUS_MAP "held")) ∧
      st.running = some ((queryDagChildren busySchedd 42).countP
        (fun n => some n.jobStatus == dictLookup JOB_STATUS_MAP "running")) ∧
      st.idle = some ((queryDagChildren busySchedd 42).countP
        (fun n => some n.jobStatus == dictLookup JOB_STATUS_MAP "idle")) ∧
      (queryDagChildren busySchedd 42).countP
          (fun n => some n.jobStatus == dictLookup JOB_STATUS_MAP "held")
        + (queryDagChildren busySchedd 42).countP
          (fun n => some n.jobStatus == dictLookup JOB_STATUS_MAP "running")
        + (queryDagChildren busySchedd 42).countP
          (fun n => some n.jobStatus == dictLookup JOB_STATUS_MAP "idle")
        ≤ (queryDagChildren busySchedd 42).length :=
  get_dag_status_detail_spec 42 busySchedd liveJob [] (by rfl)

/-- An element of the yielded sequence that carries an exit code is the last
element: the generator stops right after yielding it. -/
lemma iterate_terminal_last (clusterid : Nat) (script : List Schedd) (i : Nat)
    (st : DagStatus)
    (h : (iterate_dag_status clusterid script).get? i = some st)
    (hterm : st.exitcode.isSome = true) :
    i + 1 = (iterate_dag_status clusterid script).length := by
  induction script generalizing i with
  | nil => simp [iterate_dag_status] at h
  | cons schedd rest ih =>
    have heq : iterate_dag_status clusterid (schedd :: rest) =
        match get_dag_status clusterid schedd true with
        | Except.error _ => []
        | Except.ok status =>
          status :: (if status.exitcode.isSome then []
                     else iterate_dag_status clusterid rest) := rfl
    rcases hg : get_dag_status clusterid schedd true with e | status
    · rw [heq, hg] at h
      simp at h
    · by_cases hs : status.exitcode.isSome = true
      · have hlist : iterate_dag_status clusterid (schedd :: rest) = [status] := by
          rw [heq, hg]
          simp [hs]
        rw [hlist] at h ⊢
        cases i with
        | zero => rfl
        | succ k => simp at h
      · have hlist : iterate_dag_status clusterid (schedd :: rest) =
            status :: iterate_dag_status clusterid rest := by
          rw [heq, hg]
          simp [hs]
        rw [hlist] at h ⊢
        cases i with
        | zero =>
          have hst : status = st := by simpa using h
          rw [hst] at hs
          exact absurd hterm hs
        | succ k =>
          have hk : (iterate_dag_status clusterid rest).get? k = some st := by
            simpa using h
          have := ih k hk
          simp only [List.length_cons]
          omega

/-- C3: an element of the yielded status sequence carrying an exit code is
always the final element, and on the scripted connection that shows the DAG
live three times and then only in history the sequence has exactly four
elements, of which only the last carries an exit code. -/
theorem iterate_dag_status_spec (clusterid : Nat) (script : List Schedd)
    (i : Nat) (st : DagStatus)
    (h : (iterate_dag_status clusterid script).get? i = some st)
    (hterm : st.exitcode.isSome = true) :
    i + 1 = (iterate_dag_status clusterid script).length ∧
    (iterate_dag_status 42 demoScript).map (fun x => x.exitcode.isSome)
      = [false, false, false, true] :=
  ⟨iterate_terminal_last clusterid script i st h hterm, by decide⟩

/-- Witness for C3 on the scripted connection: the terminal snapshot is
yielded fourth and last. -/
theorem iterate_dag_status_spec_witness :
    3 + 1 = (iterate_dag_status 42 demoScript).length ∧
    (iterate_dag_status 42 demoScript).map (fun x => x.exitcode.isSome)
      = [false, false, false, true] :=
  iterate_dag_status_spec 42 demoScript 3
    { total := 10, done := 10, queued := 0, ready := 0, unready := 0,
      failed := 0, held := none, running := none, idle := none,
      exitcode := some 0 }
    (by decide) (by decide)

/-- C5: evaluation of find_rescue_dag at the example of the claim.  Because
the source never interpolates the dagfile into the glob pattern, the files
foo.dag.rescue001, foo.dag.rescue002 and foo.dag.rescue010 match nothing
and the call fails with the not-found error instead of returning
foo.dag.rescue010; the variant that follows the words of the spec (pattern
prefixed with the dagfile) does return foo.dag.rescue010, which is also
what the docstring of the source promises. -/
theorem find_rescue_dag_bug_eval :
    find_rescue_dag "foo.dag"
        ["foo.dag.rescue001", "foo.dag.rescue002", "foo.dag.rescue010"]
      = Except.error CondorError.notFound ∧
    find_rescue_dag_spec "foo.dag"
        ["foo.dag.rescue001", "foo.dag.rescue002", "foo.dag.rescue010"]
      = Except.ok "foo.dag.rescue010" ∧
    find_rescue_dag "foo.dag" [] = Except.error CondorError.notFound ∧
    find_rescue_dag_spec "foo.dag" [] = Except.error CondorError.notFound :=
  ⟨rfl, rfl, rfl, rfl⟩

/-- C6: submit_dag returns 4821 on output containing the phrase submitted to
cluster 4821, fails with the parse error on any output in which the cluster
pattern is absent, fails with the exec error when the subprocess itself
failed, and the two error kinds are distinct. -/
theorem submit_dag_spec (out : String)
    (h : re_dagman_cluster_search out = none) :
    submit_dag (Except.ok out) = Except.error SubmitError.parseError ∧
    submit_dag (Except.ok
        "Submitting job(s). 1 job(s) submitted to cluster 4821.\n")
      = Except.ok 4821 ∧
    submit_dag (Except.error ()) = Except.error SubmitError.execError ∧
    SubmitError.parseError ≠ SubmitError.execError := by
  refine ⟨?_, rfl, rfl, by decide⟩
  unfold submit_dag
  dsimp only
  rw [h]

/-- Witness for C6 on a concrete output lacking the phrase. -/
theorem submit_dag_spec_witness :
    submit_dag (Except.ok "condor_submit_dag: bad output")
      = Except.error SubmitError.parseError ∧
    submit_dag (Except.ok
        "Submitting job(s). 1 job(s) submitted to cluster 4821.\n")
      = Except.ok 4821 ∧
    submit_dag (Except.error ()) = Except.error SubmitError.execError ∧
    SubmitError.parseError ≠ SubmitError.execError :=
  submit_dag_spec "condor_submit_dag: bad output" (by decide)

/-- C7 counterexample: the claim says every casing of a status name maps to
its code, but the dict is keyed by the lowercased names only, so the input
Held has no mapping at all, in particular not the code 5. -/
theorem job_status_map_counterexample :
    dictLookup JOB_STATUS_MAP "Held" = none ∧
    ¬ dictLookup JOB_STATUS_MAP "Held" = some 5 := by decide

/-- C7 amended: the lexicon maps the seven lowercased names, in the fixed
order, to the codes 0 through 6; its keys are exactly the lowercased forms
of the canonical list, so held maps to 5, running to 2 and idle to 1 for
lowercase input, while any other casing such as Held or HELD is absent. -/
theorem job_status_map_amended :
    dictLookup JOB_STATUS_MAP "unexpanded" = some 0 ∧
    dictLookup JOB_STATUS_MAP "idle" = some 1 ∧
    dictLookup JOB_STATUS_MAP "running" = some 2 ∧
    dictLookup JOB_STATUS_MAP "removed" = some 3 ∧
    dictLookup JOB_STATUS_MAP "completed" = some 4 ∧
    dictLookup JOB_STATUS_MAP "held" = some 5 ∧
    dictLookup JOB_STATUS_MAP "submission error" = some 6 ∧
    JOB_STATUS_MAP.map Prod.fst = JOB_STATUS.map pyLower ∧
    dictLookup JOB_STATUS_MAP "HELD" = none := by decide

/-- C9: when the lock file is absent at call time, monitor_dag raises from
the initial stat at once, whatever the later snapshots would have shown. -/
theorem monitor_dag_missing_lock_spec (dagfile : String) (fs0 : List String)
    (script : List (List String))
    (h : (dagfile ++ ".lock") ∉ fs0) :
    monitor_dag dagfile fs0 script = MonitorOutcome.raisedStatError := by
  unfold monitor_dag
  rw [if_neg h]

/-- Witness for C9: an empty directory at call time. -/
theorem monitor_dag_missing_lock_spec_witness :
    monitor_dag "foo.dag" [] [["foo.dag.lock"]]
      = MonitorOutcome.raisedStatError :=
  monitor_dag_missing_lock_spec "foo.dag" [] [["foo.dag.lock"]] (by decide)

/-- The loop breaks at the first observed snapshot from which the lock file
is gone. -/
lemma monitorLoop_vanish (lock : String) (script : List (List String))
    (h : ∃ fs ∈ script, lock ∉ fs) :
    monitorLoop lock script = some () := by
  induction script with
  | nil => simp at h
  | cons fs rest ih =>
    unfold monitorLoop
    by_cases hl : lock ∈ fs
    · rw [if_pos hl]
      apply ih
      rcases h with ⟨g, hg, hng⟩
      rcases List.mem_cons.mp hg with hgf | hg2
      · rw [hgf] at hng
        exact absurd hl hng
      · exact ⟨g, hg2, hng⟩
    · rw [if_neg hl]

/-- C10: when the lock file exists at call time and disappears in some later
observed snapshot, monitor_dag never returns normally: the post-loop call
to the undefined name find_rescue raises NameError. -/
theorem monitor_dag_lock_vanishes_spec (dagfile : String) (fs0 : List String)
    (script : List (List String))
    (h0 : (dagfile ++ ".lock") ∈ fs0)
    (h1 : ∃ fs ∈ script, (dagfile ++ ".lock") ∉ fs) :
    monitor_dag dagfile fs0 script = MonitorOutcome.raisedNameError := by
  unfold monitor_dag
  rw [if_pos h0, monitorLoop_vanish (dagfile ++ ".lock") script h1]
  rfl

/-- Witness for C10: the lock file is present at call time and gone in the
second observed snapshot. -/
theorem monitor_dag_lock_vanishes_spec_witness :
    monitor_dag "foo.dag" ["foo.dag.lock"] [["foo.dag.lock"], []]
      = MonitorOutcome.raisedNameError :=
  monitor_dag_lock_vanishes_spec "foo.dag" ["foo.dag.lock"]
    [["foo.dag.lock"], []] (by decide) (by decide)

end Condor
